import Mathlib

/-!
Shallow embedding of `repo2docker/buildpacks/conda/freeze.py`.

The script manipulates text files on disk, invokes the external tool
conda-lock, and rewrites YAML environment manifests.  We model:

* the filesystem as a partial map from path strings to file contents
  (`FS := String → Option String`);
* Python `f.readline()` as `readline` (the prefix of the contents up to
  and including the first newline);
* the Python substring test `"GENERATED" in line` as `containsSub`;
* the external conda-lock invocation as an `Option String` parameter:
  `some lock` means the tool exited 0 and wrote `lock` into the
  filename-template file, `none` means it exited nonzero (so
  `check_call` raises `CalledProcessError`);
* the parsed YAML document `yaml.load(ENV_FILE)` as a `CondaEnv`
  structure (a dependencies list of strings plus the remaining mapping
  entries, which the script never touches); ruamel serialization
  `yaml.dump` is modelled by the concrete `dumpEnv` below — no claim
  depends on the exact YAML surface syntax, only on which document is
  dumped and on what precedes it in the file;
* `datetime.utcnow()` formatting as an opaque timestamp string
  parameter `ts`.

Outcomes (`skipped` / `written` / raised exception) are returned
explicitly so that control flow can be stated.
-/

/-- A filesystem: path to file contents, `none` when the file does not exist. -/
def FS : Type := String → Option String

/-- Point update of a filesystem (`none` content deletes the file). -/
def update (fs : FS) (path : String) (content : Option String) : FS :=
  fun p => if p = path then content else fs p

/-- Characters of a line: everything up to and including the first newline,
mirroring Python `f.readline()` on the file contents. -/
def readlineList : List Char → List Char
  | [] => []
  | c :: cs => if c = '\n' then [c] else c :: readlineList cs

/-- Python `f.readline()` applied to whole file contents. -/
def readline (s : String) : String := String.mk (readlineList s.data)

/-- Boolean list-prefix test (used to implement substring search). -/
def listIsPrefixOf : List Char → List Char → Bool
  | [], _ => true
  | _ :: _, [] => false
  | a :: as, b :: bs => a == b && listIsPrefixOf as bs

/-- Boolean contiguous-sublist test (used to implement substring search). -/
def listIsInfixOf (n : List Char) : List Char → Bool
  | [] => listIsPrefixOf n []
  | c :: t => listIsPrefixOf n (c :: t) || listIsInfixOf n t

/-- Python substring containment `needle in hay`. -/
def containsSub (needle hay : String) : Bool :=
  listIsInfixOf needle.data hay.data

/-- The guard both functions share: it is OK to clobber `path` when the file
does not exist, or exists and its first line contains "GENERATED".
This is the inlined `exists` / `readline` / `"GENERATED" not in line` check
at the top of `freeze` and of `set_python`. -/
def clobberOk (fs : FS) (path : String) : Bool :=
  match fs path with
  | some content => containsSub "GENERATED" (readline content)
  | none => true

/-- Outcome of a `freeze` call. -/
inductive FreezeOutcome where
  | skipped
  | written
  | lockFailed
deriving DecidableEq, Repr

/-- Outcome of a `set_python` call. -/
inductive SetPyOutcome where
  | skipped
  | written
  | valueError
deriving DecidableEq, Repr

/-- The conda-lock temp file path: `str(frozen_dest) + ".{platform}"`
formatted with the platform. -/
def tempName (frozen_file platform : String) : String :=
  frozen_file ++ "." ++ platform

/-- The two header lines `freeze` writes before the lock content:
the generated-from line and the frozen-on timestamp line. -/
def freezeHeader (env_file ts : String) : String :=
  "# AUTO GENERATED FROM " ++ env_file ++ ", DO NOT MANUALLY MODIFY\n"
    ++ "# Frozen on " ++ ts ++ "\n"

/-- Model of `freeze(env_file, frozen_file, platform)`.

Returns the new filesystem, whether conda-lock was invoked, and the
outcome.  `lockResult = none` models `check_call` raising
`CalledProcessError` (the function aborts with the filesystem
unchanged); `some lock` models conda-lock writing `lock` to the
filename-template file, which freeze then stamps into `frozen_file`
and removes. -/
def freeze (fs : FS) (env_file frozen_file platform : String)
    (lockResult : Option String) (ts : String) : FS × Bool × FreezeOutcome :=
  if clobberOk fs frozen_file then
    match lockResult with
    | none => (fs, true, FreezeOutcome.lockFailed)
    | some lock =>
      let temp := tempName frozen_file platform
      let fs1 := update fs temp (some lock)
      let fs2 := update fs1 frozen_file (some (freezeHeader env_file ts ++ lock))
      let fs3 := update fs2 temp none
      (fs3, true, FreezeOutcome.written)
  else (fs, false, FreezeOutcome.skipped)

/-- Python `dep.split("=")[0]`: the prefix of `dep` before the first `=`
(the whole string when there is no `=`). -/
def splitEqHead (s : String) : String :=
  String.mk (s.data.takeWhile (fun c => c ≠ '='))

/-- The parsed YAML environment manifest: the `dependencies` list (strings
such as "python=3.7.*") and the remaining top-level mapping entries,
which `set_python` never touches. -/
structure CondaEnv where
  dependencies : List String
  otherFields : List (String × String)
deriving DecidableEq, Repr

/-- The for/break/else loop of `set_python`: replace the first dependency
whose prefix before `=` equals "python" with `python={py}.*`; `none`
models the `else: raise ValueError` branch (no such dependency). -/
def replacePython (deps : List String) (py : String) : Option (List String) :=
  match deps with
  | [] => none
  | d :: rest =>
    if splitEqHead d = "python" then some (("python=" ++ py ++ ".*") :: rest)
    else Option.map (fun ds => d :: ds) (replacePython rest py)

/-- The document transformation `set_python` applies to the loaded env:
dependencies list rewritten, all other fields untouched. -/
def setPyEnv (env : CondaEnv) (py : String) : Option CondaEnv :=
  Option.map (fun ds => { env with dependencies := ds }) (replacePython env.dependencies py)

/-- Model of ruamel `yaml.dump` for a `CondaEnv`.  The script treats the
serialization as opaque; this concrete rendering stands in for it. -/
def dumpEnv (env : CondaEnv) : String :=
  String.join (env.otherFields.map (fun kv => kv.1 ++ ": " ++ kv.2 ++ "\n"))
    ++ "dependencies:\n"
    ++ String.join (env.dependencies.map (fun d => "- " ++ d ++ "\n"))

/-- The two header lines `set_python` writes before dumping the document.
`ENV_FILE.relative_to(HERE)` is the literal "environment.yml". -/
def setPyHeader (ts : String) : String :=
  "# AUTO GENERATED FROM environment.yml, DO NOT MANUALLY MODIFY\n"
    ++ "# Generated on " ++ ts ++ "\n"

/-- Model of `set_python(py_env_file, py)`.  `env` is the document parsed from
`ENV_FILE` (the master `environment.yml`).  Returns the new filesystem
and the outcome (`valueError` models the raised `ValueError`, which
leaves the filesystem unchanged because the output file is only opened
after the loop succeeds). -/
def set_python (fs : FS) (py_env_file py : String) (env : CondaEnv) (ts : String) :
    FS × SetPyOutcome :=
  if clobberOk fs py_env_file then
    match setPyEnv env py with
    | none => (fs, SetPyOutcome.valueError)
    | some env2 =>
      (update fs py_env_file (some (setPyHeader ts ++ dumpEnv env2)), SetPyOutcome.written)
  else (fs, SetPyOutcome.skipped)

/-- Name produced by `ENV_FILE_T.format(py=py)`: the per-version env file name. -/
def envFileName (py : String) : String := "environment.py-" ++ py ++ ".yml"

/-- Name produced by `os.path.splitext(env_file)[0]` plus the platform lock suffix: the per-version,
per-platform lock file name. -/
def frozenFileName (py platform : String) : String :=
  "environment.py-" ++ py ++ "-" ++ platform ++ ".lock"

/-- Name produced by `FROZEN_FILE_T.format(platform=platform)`: the platform-generic lock
file name `environment-{platform}.lock`. -/
def genericLockName (platform : String) : String :=
  "environment-" ++ platform ++ ".lock"

/-- The `default_py` constant of the `__main__` block. -/
def default_py : String := "3.7"

/-- The exceptions the script can propagate out of the main loop. -/
inductive ScriptError where
  | valueError
  | calledProcessError
deriving DecidableEq, Repr

/-- One iteration of the nested `for py / for platform` body in
`__main__`: run `set_python`, then `freeze`, then, when `py` equals
`default_py`, `shutil.copy` the per-version lock file onto the generic
lock path.  The Bool records whether the copy was performed. -/
def mainStep (fs : FS) (env : CondaEnv) (lockResult : Option String)
    (ts py platform : String) : Except ScriptError (FS × Bool) :=
  let ef := envFileName py
  let r1 := set_python fs ef py env ts
  if r1.2 = SetPyOutcome.valueError then Except.error ScriptError.valueError
  else
    let ff := frozenFileName py platform
    let r2 := freeze r1.1 ef ff platform lockResult ts
    if r2.2.2 = FreezeOutcome.lockFailed then Except.error ScriptError.calledProcessError
    else if py = default_py then
      Except.ok (update r2.1 (genericLockName platform) (r2.1 ff), true)
    else Except.ok (r2.1, false)

/-- Default of the `py` positional argument of the CLI. -/
def defaultPys : List String := ["3.7", "3.8", "3.9", "3.10"]

/-- Default of the `platform` positional argument of the CLI. -/
def defaultPlatforms : List String := ["linux-64", "linux-aarch64"]

/-- argparse semantics for the two consecutive `nargs="*"` positionals
declared in `__main__`: the first positional greedily consumes every
supplied positional argument, and a `nargs="*"` positional that matched
nothing takes its declared default.  Hence `platform` always receives
its default, and `py` receives the whole argument list when nonempty. -/
def parse_args (argv : List String) : List String × List String :=
  ((if argv.isEmpty then defaultPys else argv), defaultPlatforms)

/-! ## Helper lemmas -/

theorem update_apply (fs : FS) (path : String) (c : Option String) (p : String) :
    update fs path c p = if p = path then c else fs p := rfl

theorem tempName_ne (f p : String) : tempName f p ≠ f := by
  intro h
  have hl := congrArg String.length h
  have h1 : ("." : String).length = 1 := rfl
  simp only [tempName, String.length_append, h1] at hl
  omega

theorem clobberOk_of_none (fs : FS) (path : String) (h : fs path = none) :
    clobberOk fs path = true := by
  unfold clobberOk
  rw [h]

theorem clobberOk_of_some (fs : FS) (path c : String) (h : fs path = some c) :
    clobberOk fs path = containsSub "GENERATED" (readline c) := by
  unfold clobberOk
  rw [h]

theorem freeze_skipped (fs : FS) (ef ff pl : String) (lr : Option String) (ts : String)
    (hc : clobberOk fs ff = false) :
    freeze fs ef ff pl lr ts = (fs, false, FreezeOutcome.skipped) := by
  simp [freeze, hc]

theorem freeze_lockFailed (fs : FS) (ef ff pl ts : String)
    (hc : clobberOk fs ff = true) :
    freeze fs ef ff pl none ts = (fs, true, FreezeOutcome.lockFailed) := by
  simp [freeze, hc]

theorem freeze_written_eq (fs : FS) (ef ff pl lock ts : String)
    (hc : clobberOk fs ff = true) :
    freeze fs ef ff pl (some lock) ts
      = (update (update (update fs (tempName ff pl) (some lock)) ff
            (some (freezeHeader ef ts ++ lock))) (tempName ff pl) none,
         true, FreezeOutcome.written) := by
  simp [freeze, hc]

theorem freeze_written_dest (fs : FS) (ef ff pl lock ts : String)
    (hc : clobberOk fs ff = true) :
    (freeze fs ef ff pl (some lock) ts).1 ff = some (freezeHeader ef ts ++ lock) := by
  rw [freeze_written_eq fs ef ff pl lock ts hc]
  show update _ _ none ff = _
  rw [update_apply, if_neg (Ne.symm (tempName_ne ff pl)), update_apply, if_pos rfl]

theorem freeze_written_temp_gone (fs : FS) (ef ff pl lock ts : String)
    (hc : clobberOk fs ff = true) :
    (freeze fs ef ff pl (some lock) ts).1 (tempName ff pl) = none := by
  rw [freeze_written_eq fs ef ff pl lock ts hc]
  show update _ _ none (tempName ff pl) = _
  rw [update_apply, if_pos rfl]

theorem set_python_skipped (fs : FS) (pf py : String) (env : CondaEnv) (ts : String)
    (hc : clobberOk fs pf = false) :
    set_python fs pf py env ts = (fs, SetPyOutcome.skipped) := by
  simp [set_python, hc]

theorem set_python_valueError (fs : FS) (pf py : String) (env : CondaEnv) (ts : String)
    (hc : clobberOk fs pf = true) (hr : setPyEnv env py = none) :
    set_python fs pf py env ts = (fs, SetPyOutcome.valueError) := by
  simp [set_python, hc, hr]

theorem set_python_written (fs : FS) (pf py : String) (env env2 : CondaEnv) (ts : String)
    (hc : clobberOk fs pf = true) (hr : setPyEnv env py = some env2) :
    set_python fs pf py env ts
      = (update fs pf (some (setPyHeader ts ++ dumpEnv env2)), SetPyOutcome.written) := by
  simp [set_python, hc, hr]

theorem listIsPrefixOf_append :
    ∀ (n l1 l2 : List Char), listIsPrefixOf n l1 = true → listIsPrefixOf n (l1 ++ l2) = true
  | [], _, _, _ => rfl
  | _ :: _, [], _, h => by simp [listIsPrefixOf] at h
  | a :: as, b :: bs, l2, h => by
    simp only [listIsPrefixOf, Bool.and_eq_true, beq_iff_eq] at h
    simp only [List.cons_append, listIsPrefixOf, Bool.and_eq_true, beq_iff_eq]
    exact ⟨h.1, listIsPrefixOf_append as bs l2 h.2⟩

theorem listIsInfixOf_append :
    ∀ (n l1 l2 : List Char), listIsInfixOf n l1 = true → listIsInfixOf n (l1 ++ l2) = true
  | n, [], l2, h => by
    cases n with
    | nil =>
      cases l2 with
      | nil => rfl
      | cons c t => rfl
    | cons a as => simp [listIsInfixOf, listIsPrefixOf] at h
  | n, c :: t, l2, h => by
    simp only [listIsInfixOf, Bool.or_eq_true] at h
    simp only [List.cons_append, listIsInfixOf, Bool.or_eq_true]
    cases h with
    | inl hp =>
      have := listIsPrefixOf_append n (c :: t) l2 hp
      rw [List.cons_append] at this
      exact Or.inl this
    | inr hi => exact Or.inr (listIsInfixOf_append n t l2 hi)

theorem readlineList_append (l1 l2 : List Char) (h : '\n' ∉ l1) :
    readlineList (l1 ++ l2) = l1 ++ readlineList l2 := by
  induction l1 with
  | nil => rfl
  | cons c t ih =>
    have hc : c ≠ '\n' := fun he => h (he ▸ List.mem_cons_self c t)
    have ht : '\n' ∉ t := fun he => h (List.mem_cons_of_mem c he)
    simp only [List.cons_append, readlineList, if_neg hc, List.append_eq, ih ht]

theorem set_python_written_dest (fs : FS) (pf py : String) (env env2 : CondaEnv) (ts : String)
    (hc : clobberOk fs pf = true) (hr : setPyEnv env py = some env2) :
    (set_python fs pf py env ts).1 pf = some (setPyHeader ts ++ dumpEnv env2) := by
  rw [set_python_written fs pf py env env2 ts hc hr]
  show update _ _ _ pf = _
  rw [update_apply, if_pos rfl]

theorem get?_set_ne {α : Type} :
    ∀ (l : List α) (i j : Nat) (a : α), j ≠ i → (l.set i a).get? j = l.get? j
  | [], _, _, _, _ => rfl
  | _ :: _, 0, 0, _, h => absurd rfl h
  | _ :: _, 0, _ + 1, _, _ => rfl
  | _ :: _, _ + 1, 0, _, _ => rfl
  | _ :: xs, i + 1, j + 1, a, h =>
    get?_set_ne xs i j a (fun hh => h (by rw [hh]))

theorem replacePython_none_iff (py : String) :
    ∀ deps : List String,
      (replacePython deps py = none ↔ ∀ d ∈ deps, splitEqHead d ≠ "python")
  | [] => by simp [replacePython]
  | d :: rest => by
    simp only [replacePython]
    by_cases hd : splitEqHead d = "python"
    · simp [hd]
    · rw [if_neg hd, Option.map_eq_none', replacePython_none_iff py rest]
      simp [List.forall_mem_cons, hd]

theorem replacePython_some_spec (py : String) :
    ∀ (deps ds : List String), replacePython deps py = some ds →
      ∃ i d, deps.get? i = some d ∧ splitEqHead d = "python" ∧
        (∀ j e, j < i → deps.get? j = some e → splitEqHead e ≠ "python") ∧
        ds = deps.set i ("python=" ++ py ++ ".*")
  | [], ds, h => by simp [replacePython] at h
  | d :: rest, ds, h => by
    simp only [replacePython] at h
    by_cases hd : splitEqHead d = "python"
    · rw [if_pos hd] at h
      cases h
      exact ⟨0, d, rfl, hd, fun j e hj _ => absurd hj (Nat.not_lt_zero j), rfl⟩
    · rw [if_neg hd] at h
      cases hr : replacePython rest py with
      | none => rw [hr] at h; simp at h
      | some ds2 =>
        rw [hr] at h
        simp only [Option.map_some'] at h
        cases h
        obtain ⟨i, e0, hget, hpy, hbefore, hset⟩ := replacePython_some_spec py rest ds2 hr
        refine ⟨i + 1, e0, hget, hpy, ?_, ?_⟩
        · intro j e hj hje
          cases j with
          | zero =>
            have he : e = d := by
              simp only [List.get?] at hje
              exact (Option.some.inj hje).symm
            rw [he]
            exact hd
          | succ k =>
            exact hbefore k e (Nat.lt_of_succ_lt_succ hj) hje
        · rw [hset]
          rfl

/-- If a newline-free string `p` starts with a hash and contains the marker,
then any file whose contents are `p` followed by anything has a first line
that is a comment and carries the marker. -/
theorem marker_head_general (p : String) (rest : List Char)
    (hn : '\n' ∉ p.data)
    (hm : listIsInfixOf ("GENERATED" : String).data p.data = true)
    (hp : p.data.head? = some '#') :
    containsSub "GENERATED" (readline (String.mk (p.data ++ rest))) = true ∧
    (readline (String.mk (p.data ++ rest))).data.head? = some '#' := by
  constructor
  · show listIsInfixOf _ (readlineList (p.data ++ rest)) = true
    rw [readlineList_append _ _ hn]
    exact listIsInfixOf_append _ _ _ hm
  · show (readlineList (p.data ++ rest)).head? = some '#'
    rw [readlineList_append _ _ hn]
    cases hd : p.data with
    | nil =>
      rw [hd] at hp
      exact absurd hp (by simp)
    | cons c t =>
      rw [hd] at hp
      rw [Option.some.inj hp]
      rfl

theorem freeze_output_marker (ef ts lock : String) :
    containsSub "GENERATED" (readline (freezeHeader ef ts ++ lock)) = true ∧
    (readline (freezeHeader ef ts ++ lock)).data.head? = some '#' := by
  have key := marker_head_general "# AUTO GENERATED FROM "
      (ef.data ++ ((", DO NOT MANUALLY MODIFY\n" : String).data
        ++ (("# Frozen on " : String).data ++ (ts.data ++ (("\n" : String).data ++ lock.data)))))
      (by decide) (by decide) (by decide)
  have h2 : freezeHeader ef ts ++ lock
      = String.mk (("# AUTO GENERATED FROM " : String).data
        ++ (ef.data ++ ((", DO NOT MANUALLY MODIFY\n" : String).data
          ++ (("# Frozen on " : String).data ++ (ts.data ++ (("\n" : String).data ++ lock.data)))))) := by
    apply String.ext
    simp only [freezeHeader, String.data_append, List.append_assoc]
  rw [h2]
  exact key

theorem setPy_output_marker (ts : String) (env2 : CondaEnv) :
    containsSub "GENERATED" (readline (setPyHeader ts ++ dumpEnv env2)) = true ∧
    (readline (setPyHeader ts ++ dumpEnv env2)).data.head? = some '#' := by
  have key := marker_head_general "# AUTO GENERATED FROM "
      (("environment.yml, DO NOT MANUALLY MODIFY\n" : String).data
        ++ (("# Generated on " : String).data
          ++ (ts.data ++ (("\n" : String).data ++ (dumpEnv env2).data))))
      (by decide) (by decide) (by decide)
  have hsplit : ("# AUTO GENERATED FROM environment.yml, DO NOT MANUALLY MODIFY\n" : String).data
      = ("# AUTO GENERATED FROM " : String).data
        ++ ("environment.yml, DO NOT MANUALLY MODIFY\n" : String).data := by decide
  have h2 : setPyHeader ts ++ dumpEnv env2
      = String.mk (("# AUTO GENERATED FROM " : String).data
        ++ (("environment.yml, DO NOT MANUALLY MODIFY\n" : String).data
          ++ (("# Generated on " : String).data
            ++ (ts.data ++ (("\n" : String).data ++ (dumpEnv env2).data))))) := by
    apply String.ext
    simp [setPyHeader, String.data_append, List.append_assoc, hsplit]
  rw [h2]
  exact key

/-! ## Concrete sample inputs used by witnesses and counterexamples -/

/-- A sample parsed environment manifest with a python dependency. -/
def envSample : CondaEnv :=
  { dependencies := ["pip", "python=3.7.*", "numpy"], otherFields := [("name", "r2d")] }

/-- The manifest `envSample` after set_python rewrites the pin to 3.8. -/
def envSample38 : CondaEnv :=
  { dependencies := ["pip", "python=3.8.*", "numpy"], otherFields := [("name", "r2d")] }

/-- A filesystem holding one hand-edited (unmarked) lock file. -/
def fsHand : FS := fun p =>
  if p = "environment.py-3.8-linux-64.lock" then some "# hand edited\npins\n" else none

/-- A filesystem holding one auto-generated (marked) lock file. -/
def fsMarked : FS := fun p =>
  if p = "environment.py-3.8-linux-64.lock"
  then some "# AUTO GENERATED FROM environment.py-3.8.yml, DO NOT MANUALLY MODIFY\nold pins\n"
  else none

/-! ## Claim theorems -/

/-- C1: if the target output file already exists and its first line does not
contain "GENERATED", freeze returns without invoking conda-lock and without
touching the filesystem, and set_python likewise returns with the filesystem
unchanged. -/
theorem freeze_set_python_refuse_unmarked
    (fs : FS) (ef ff pl : String) (lr : Option String) (ts c : String)
    (hex : fs ff = some c)
    (hm : containsSub "GENERATED" (readline c) = false)
    (fs2 : FS) (pf py : String) (env : CondaEnv) (ts2 c2 : String)
    (hex2 : fs2 pf = some c2)
    (hm2 : containsSub "GENERATED" (readline c2) = false) :
    freeze fs ef ff pl lr ts = (fs, false, FreezeOutcome.skipped)
      ∧ set_python fs2 pf py env ts2 = (fs2, SetPyOutcome.skipped) := by
  constructor
  · exact freeze_skipped fs ef ff pl lr ts
      (by rw [clobberOk_of_some fs ff c hex]; exact hm)
  · exact set_python_skipped fs2 pf py env ts2
      (by rw [clobberOk_of_some fs2 pf c2 hex2]; exact hm2)

/-- Witness for C1 at a concrete hand-edited file. -/
theorem freeze_set_python_refuse_unmarked_witness :
    fsHand "environment.py-3.8-linux-64.lock" = some "# hand edited\npins\n"
    ∧ containsSub "GENERATED" (readline "# hand edited\npins\n") = false
    ∧ (freeze fsHand "environment.py-3.8.yml" "environment.py-3.8-linux-64.lock" "linux-64"
          (some "lockdata\n") "2022-01-01 00:00:00 UTC"
        = (fsHand, false, FreezeOutcome.skipped)
      ∧ set_python fsHand "environment.py-3.8-linux-64.lock" "3.8" envSample
          "2022-01-01 00:00:00 UTC"
        = (fsHand, SetPyOutcome.skipped)) :=
  ⟨by decide, by decide,
    freeze_set_python_refuse_unmarked fsHand "environment.py-3.8.yml"
      "environment.py-3.8-linux-64.lock" "linux-64" (some "lockdata\n")
      "2022-01-01 00:00:00 UTC" "# hand edited\npins\n" (by decide) (by decide)
      fsHand "environment.py-3.8-linux-64.lock" "3.8" envSample
      "2022-01-01 00:00:00 UTC" "# hand edited\npins\n" (by decide) (by decide)⟩

/-- C2 counterexample: the claim says a pre-existing marker line causes the
script to skip overwriting; in fact the marker is what permits overwriting.
Here the existing lock file's first line contains "GENERATED", yet freeze
rewrites the file. -/
theorem marker_present_is_overwritten :
    containsSub "GENERATED"
      (readline "# AUTO GENERATED FROM environment.py-3.8.yml, DO NOT MANUALLY MODIFY\nold pins\n")
      = true
    ∧ (freeze fsMarked "environment.py-3.8.yml" "environment.py-3.8-linux-64.lock" "linux-64"
        (some "new pins\n") "TS").2.2 = FreezeOutcome.written
    ∧ (freeze fsMarked "environment.py-3.8.yml" "environment.py-3.8-linux-64.lock" "linux-64"
        (some "new pins\n") "TS").1 "environment.py-3.8-linux-64.lock"
      ≠ fsMarked "environment.py-3.8-linux-64.lock" := by
  refine ⟨by decide, by decide, by decide⟩

/-- C2 amended: for an existing target, the ABSENCE of "GENERATED" in the
first line causes the write to be skipped, and its PRESENCE causes
regeneration to proceed, rewriting the file (when conda-lock succeeds, for
freeze, and when a python dependency exists, for set_python). -/
theorem marker_gates_regeneration
    (fs : FS) (ef ff pl lock ts c : String)
    (hex : fs ff = some c)
    (fs2 : FS) (pf py ts2 c2 : String) (env env2 : CondaEnv)
    (hex2 : fs2 pf = some c2)
    (hrepl : setPyEnv env py = some env2) :
    (containsSub "GENERATED" (readline c) = false →
      freeze fs ef ff pl (some lock) ts = (fs, false, FreezeOutcome.skipped))
    ∧ (containsSub "GENERATED" (readline c) = true →
      (freeze fs ef ff pl (some lock) ts).2.2 = FreezeOutcome.written
        ∧ (freeze fs ef ff pl (some lock) ts).1 ff = some (freezeHeader ef ts ++ lock))
    ∧ (containsSub "GENERATED" (readline c2) = false →
      set_python fs2 pf py env ts2 = (fs2, SetPyOutcome.skipped))
    ∧ (containsSub "GENERATED" (readline c2) = true →
      set_python fs2 pf py env ts2
        = (update fs2 pf (some (setPyHeader ts2 ++ dumpEnv env2)), SetPyOutcome.written)) := by
  refine ⟨fun hm => ?_, fun hm => ?_, fun hm => ?_, fun hm => ?_⟩
  · exact freeze_skipped fs ef ff pl (some lock) ts
      (by rw [clobberOk_of_some fs ff c hex]; exact hm)
  · have hc : clobberOk fs ff = true := by rw [clobberOk_of_some fs ff c hex]; exact hm
    exact ⟨by rw [freeze_written_eq fs ef ff pl lock ts hc],
      freeze_written_dest fs ef ff pl lock ts hc⟩
  · exact set_python_skipped fs2 pf py env ts2
      (by rw [clobberOk_of_some fs2 pf c2 hex2]; exact hm)
  · exact set_python_written fs2 pf py env env2 ts2
      (by rw [clobberOk_of_some fs2 pf c2 hex2]; exact hm) hrepl

/-- Witness for the amended C2 at a concrete marked file. -/
theorem marker_gates_regeneration_witness :
    fsMarked "environment.py-3.8-linux-64.lock"
      = some "# AUTO GENERATED FROM environment.py-3.8.yml, DO NOT MANUALLY MODIFY\nold pins\n"
    ∧ setPyEnv envSample "3.8" = some envSample38
    ∧ ((containsSub "GENERATED"
          (readline "# AUTO GENERATED FROM environment.py-3.8.yml, DO NOT MANUALLY MODIFY\nold pins\n")
          = false →
        freeze fsMarked "environment.py-3.8.yml" "environment.py-3.8-linux-64.lock" "linux-64"
          (some "new pins\n") "TS"
          = (fsMarked, false, FreezeOutcome.skipped))
      ∧ (containsSub "GENERATED"
          (readline "# AUTO GENERATED FROM environment.py-3.8.yml, DO NOT MANUALLY MODIFY\nold pins\n")
          = true →
        (freeze fsMarked "environment.py-3.8.yml" "environment.py-3.8-linux-64.lock" "linux-64"
          (some "new pins\n") "TS").2.2 = FreezeOutcome.written
          ∧ (freeze fsMarked "environment.py-3.8.yml" "environment.py-3.8-linux-64.lock" "linux-64"
            (some "new pins\n") "TS").1 "environment.py-3.8-linux-64.lock"
            = some (freezeHeader "environment.py-3.8.yml" "TS" ++ "new pins\n"))
      ∧ (containsSub "GENERATED"
          (readline "# AUTO GENERATED FROM environment.py-3.8.yml, DO NOT MANUALLY MODIFY\nold pins\n")
          = false →
        set_python fsMarked "environment.py-3.8-linux-64.lock" "3.8" envSample "TS"
          = (fsMarked, SetPyOutcome.skipped))
      ∧ (containsSub "GENERATED"
          (readline "# AUTO GENERATED FROM environment.py-3.8.yml, DO NOT MANUALLY MODIFY\nold pins\n")
          = true →
        set_python fsMarked "environment.py-3.8-linux-64.lock" "3.8" envSample "TS"
          = (update fsMarked "environment.py-3.8-linux-64.lock"
              (some (setPyHeader "TS" ++ dumpEnv envSample38)), SetPyOutcome.written))) :=
  ⟨by decide, by decide,
    marker_gates_regeneration fsMarked "environment.py-3.8.yml"
      "environment.py-3.8-linux-64.lock" "linux-64" "new pins\n" "TS"
      "# AUTO GENERATED FROM environment.py-3.8.yml, DO NOT MANUALLY MODIFY\nold pins\n"
      (by decide)
      fsMarked "environment.py-3.8-linux-64.lock" "3.8" "TS"
      "# AUTO GENERATED FROM environment.py-3.8.yml, DO NOT MANUALLY MODIFY\nold pins\n"
      envSample envSample38 (by decide) (by decide)⟩

/-- An empty filesystem. -/
def fsEmpty : FS := fun _ => none

/-- C3: when set_python proceeds to regenerate, it writes the stamped dump of
a document in which exactly the first dependency whose prefix before "=" is
"python" has been replaced by "python={py}.*"; every other dependency entry
and every other field of the document is unchanged. -/
theorem set_python_replaces_first_python_dep
    (fs : FS) (pf py ts : String) (env env2 : CondaEnv)
    (hc : clobberOk fs pf = true)
    (hrepl : setPyEnv env py = some env2) :
    (set_python fs pf py env ts).1 pf = some (setPyHeader ts ++ dumpEnv env2)
    ∧ env2.otherFields = env.otherFields
    ∧ ∃ i d, env.dependencies.get? i = some d
        ∧ splitEqHead d = "python"
        ∧ (∀ j e, j < i → env.dependencies.get? j = some e → splitEqHead e ≠ "python")
        ∧ env2.dependencies = env.dependencies.set i ("python=" ++ py ++ ".*")
        ∧ (∀ j, j ≠ i → env2.dependencies.get? j = env.dependencies.get? j) := by
  have hrepl2 := hrepl
  rw [setPyEnv, Option.map_eq_some'] at hrepl2
  obtain ⟨ds, hds, henv2⟩ := hrepl2
  obtain ⟨i, d, hget, hpy, hbefore, hset⟩ := replacePython_some_spec py env.dependencies ds hds
  refine ⟨set_python_written_dest fs pf py env env2 ts hc hrepl, ?_, i, d, hget, hpy, hbefore,
    ?_, ?_⟩
  · rw [← henv2]
  · rw [← henv2, hset]
  · intro j hj
    rw [← henv2]
    show ds.get? j = _
    rw [hset]
    exact get?_set_ne env.dependencies i j _ hj

/-- Witness for C3 at a concrete manifest. -/
theorem set_python_replaces_first_python_dep_witness :
    clobberOk fsEmpty "environment.py-3.8.yml" = true
    ∧ setPyEnv envSample "3.8" = some envSample38
    ∧ ((set_python fsEmpty "environment.py-3.8.yml" "3.8" envSample "TS").1
          "environment.py-3.8.yml"
        = some (setPyHeader "TS" ++ dumpEnv envSample38)
      ∧ envSample38.otherFields = envSample.otherFields
      ∧ ∃ i d, envSample.dependencies.get? i = some d
          ∧ splitEqHead d = "python"
          ∧ (∀ j e, j < i → envSample.dependencies.get? j = some e → splitEqHead e ≠ "python")
          ∧ envSample38.dependencies = envSample.dependencies.set i ("python=" ++ "3.8" ++ ".*")
          ∧ (∀ j, j ≠ i → envSample38.dependencies.get? j = envSample.dependencies.get? j)) :=
  ⟨by decide, by decide,
    set_python_replaces_first_python_dep fsEmpty "environment.py-3.8.yml" "3.8" "TS"
      envSample envSample38 (by decide) (by decide)⟩

/-- C4: with the marker check passed, set_python raises ValueError exactly
when no dependency has prefix "python" before "=", and in that case the
filesystem is untouched. -/
theorem set_python_valueError_iff_no_python_dep
    (fs : FS) (pf py ts : String) (env : CondaEnv)
    (hc : clobberOk fs pf = true) :
    ((set_python fs pf py env ts).2 = SetPyOutcome.valueError
        ↔ ∀ d ∈ env.dependencies, splitEqHead d ≠ "python")
    ∧ ((set_python fs pf py env ts).2 = SetPyOutcome.valueError
        → (set_python fs pf py env ts).1 = fs) := by
  have hiff : setPyEnv env py = none ↔ ∀ d ∈ env.dependencies, splitEqHead d ≠ "python" := by
    rw [setPyEnv, Option.map_eq_none']
    exact replacePython_none_iff py env.dependencies
  cases hr : setPyEnv env py with
  | none =>
    rw [set_python_valueError fs pf py env ts hc hr]
    exact ⟨⟨fun _ => hiff.mp hr, fun _ => rfl⟩, fun _ => rfl⟩
  | some env2 =>
    rw [set_python_written fs pf py env env2 ts hc hr]
    constructor
    · constructor
      · intro h
        exact SetPyOutcome.noConfusion h
      · intro hall
        exfalso
        rw [hiff.mpr hall] at hr
        cases hr
    · intro h
      exact SetPyOutcome.noConfusion h

/-- Witness for C4 at a concrete manifest lacking a python dependency. -/
theorem set_python_valueError_iff_no_python_dep_witness :
    clobberOk fsEmpty "environment.py-3.9.yml" = true
    ∧ (((set_python fsEmpty "environment.py-3.9.yml" "3.9"
            { dependencies := ["pip", "numpy"], otherFields := [] } "TS").2
          = SetPyOutcome.valueError
        ↔ ∀ d ∈ ({ dependencies := ["pip", "numpy"], otherFields := [] } : CondaEnv).dependencies,
            splitEqHead d ≠ "python")
      ∧ ((set_python fsEmpty "environment.py-3.9.yml" "3.9"
            { dependencies := ["pip", "numpy"], otherFields := [] } "TS").2
          = SetPyOutcome.valueError
        → (set_python fsEmpty "environment.py-3.9.yml" "3.9"
            { dependencies := ["pip", "numpy"], otherFields := [] } "TS").1 = fsEmpty)) :=
  ⟨by decide,
    set_python_valueError_iff_no_python_dep fsEmpty "environment.py-3.9.yml" "3.9" "TS"
      { dependencies := ["pip", "numpy"], otherFields := [] } (by decide)⟩

/-- C5: every file freeze or set_python writes begins with a first comment
line (hash-initial) containing the literal "GENERATED". -/
theorem outputs_begin_with_generated_marker
    (fs : FS) (ef ff pl lock ts : String)
    (hc : clobberOk fs ff = true)
    (fs2 : FS) (pf py ts2 : String) (env env2 : CondaEnv)
    (hc2 : clobberOk fs2 pf = true)
    (hrepl : setPyEnv env py = some env2) :
    (∃ out, (freeze fs ef ff pl (some lock) ts).1 ff = some out
      ∧ containsSub "GENERATED" (readline out) = true
      ∧ (readline out).data.head? = some '#')
    ∧ (∃ out2, (set_python fs2 pf py env ts2).1 pf = some out2
      ∧ containsSub "GENERATED" (readline out2) = true
      ∧ (readline out2).data.head? = some '#') := by
  constructor
  · exact ⟨freezeHeader ef ts ++ lock, freeze_written_dest fs ef ff pl lock ts hc,
      (freeze_output_marker ef ts lock).1, (freeze_output_marker ef ts lock).2⟩
  · exact ⟨setPyHeader ts2 ++ dumpEnv env2,
      set_python_written_dest fs2 pf py env env2 ts2 hc2 hrepl,
      (setPy_output_marker ts2 env2).1, (setPy_output_marker ts2 env2).2⟩

/-- Witness for C5 at concrete inputs. -/
theorem outputs_begin_with_generated_marker_witness :
    clobberOk fsEmpty "environment.py-3.8-linux-64.lock" = true
    ∧ clobberOk fsEmpty "environment.py-3.8.yml" = true
    ∧ setPyEnv envSample "3.8" = some envSample38
    ∧ ((∃ out, (freeze fsEmpty "environment.py-3.8.yml" "environment.py-3.8-linux-64.lock"
            "linux-64" (some "pins\n") "TS").1 "environment.py-3.8-linux-64.lock" = some out
        ∧ containsSub "GENERATED" (readline out) = true
        ∧ (readline out).data.head? = some '#')
      ∧ (∃ out2, (set_python fsEmpty "environment.py-3.8.yml" "3.8" envSample "TS").1
            "environment.py-3.8.yml" = some out2
        ∧ containsSub "GENERATED" (readline out2) = true
        ∧ (readline out2).data.head? = some '#')) :=
  ⟨by decide, by decide, by decide,
    outputs_begin_with_generated_marker fsEmpty "environment.py-3.8.yml"
      "environment.py-3.8-linux-64.lock" "linux-64" "pins\n" "TS" (by decide)
      fsEmpty "environment.py-3.8.yml" "3.8" "TS" envSample envSample38
      (by decide) (by decide)⟩

/-- C6: when freeze proceeds past the marker check and conda-lock succeeds,
frozen_file ends up holding exactly the generated-from line and timestamp
line (together `freezeHeader`) followed, unchanged, by the temp file content
written by conda-lock; the temp file is removed and no other path changes. -/
theorem freeze_stamps_and_removes_temp
    (fs : FS) (ef ff pl lock ts : String)
    (hc : clobberOk fs ff = true) :
    (freeze fs ef ff pl (some lock) ts).1 ff = some (freezeHeader ef ts ++ lock)
    ∧ (freeze fs ef ff pl (some lock) ts).1 (tempName ff pl) = none
    ∧ (freeze fs ef ff pl (some lock) ts).2.2 = FreezeOutcome.written
    ∧ (∀ p, p ≠ ff → p ≠ tempName ff pl → (freeze fs ef ff pl (some lock) ts).1 p = fs p) := by
  refine ⟨freeze_written_dest fs ef ff pl lock ts hc,
    freeze_written_temp_gone fs ef ff pl lock ts hc,
    by rw [freeze_written_eq fs ef ff pl lock ts hc], ?_⟩
  intro p hp1 hp2
  rw [freeze_written_eq fs ef ff pl lock ts hc]
  show update (update (update fs _ _) _ _) _ _ p = fs p
  rw [update_apply, if_neg hp2, update_apply, if_neg hp1, update_apply, if_neg hp2]

/-- Witness for C6 at concrete inputs. -/
theorem freeze_stamps_and_removes_temp_witness :
    clobberOk fsEmpty "environment.py-3.8-linux-64.lock" = true
    ∧ ((freeze fsEmpty "environment.py-3.8.yml" "environment.py-3.8-linux-64.lock" "linux-64"
          (some "pins\n") "TS").1 "environment.py-3.8-linux-64.lock"
        = some (freezeHeader "environment.py-3.8.yml" "TS" ++ "pins\n")
      ∧ (freeze fsEmpty "environment.py-3.8.yml" "environment.py-3.8-linux-64.lock" "linux-64"
          (some "pins\n") "TS").1
            (tempName "environment.py-3.8-linux-64.lock" "linux-64") = none
      ∧ (freeze fsEmpty "environment.py-3.8.yml" "environment.py-3.8-linux-64.lock" "linux-64"
          (some "pins\n") "TS").2.2 = FreezeOutcome.written
      ∧ (∀ p, p ≠ "environment.py-3.8-linux-64.lock"
          → p ≠ tempName "environment.py-3.8-linux-64.lock" "linux-64"
          → (freeze fsEmpty "environment.py-3.8.yml" "environment.py-3.8-linux-64.lock"
              "linux-64" (some "pins\n") "TS").1 p = fsEmpty p)) :=
  ⟨by decide,
    freeze_stamps_and_removes_temp fsEmpty "environment.py-3.8.yml"
      "environment.py-3.8-linux-64.lock" "linux-64" "pins\n" "TS" (by decide)⟩

/-- C7: when the conda-lock invocation fails (nonzero exit), freeze
propagates the subprocess exception: conda-lock was invoked, the outcome is
the process error, and the whole filesystem — in particular any pre-existing
frozen_file — is unchanged. -/
theorem freeze_lock_failure_leaves_fs_unchanged
    (fs : FS) (ef ff pl ts : String)
    (hc : clobberOk fs ff = true) :
    freeze fs ef ff pl none ts = (fs, true, FreezeOutcome.lockFailed) :=
  freeze_lockFailed fs ef ff pl ts hc

/-- Witness for C7: a pre-existing generated lock file survives a failed
conda-lock run untouched. -/
theorem freeze_lock_failure_leaves_fs_unchanged_witness :
    clobberOk fsMarked "environment.py-3.8-linux-64.lock" = true
    ∧ freeze fsMarked "environment.py-3.8.yml" "environment.py-3.8-linux-64.lock" "linux-64"
        none "TS"
      = (fsMarked, true, FreezeOutcome.lockFailed) :=
  ⟨by decide,
    freeze_lock_failure_leaves_fs_unchanged fsMarked "environment.py-3.8.yml"
      "environment.py-3.8-linux-64.lock" "linux-64" "TS" (by decide)⟩

/-- C8 counterexample: Python versions and platforms cannot be supplied
independently.  Supplying "3.9 linux-aarch64" sends both tokens to the py
argument, and the platform argument still holds its default rather than
["linux-aarch64"]. -/
theorem platforms_not_suppliable_positionally :
    parse_args ["3.9", "linux-aarch64"]
      = (["3.9", "linux-aarch64"], ["linux-64", "linux-aarch64"]) := by decide

/-- C8 amended: the CLI declares two positional arguments with static
defaults 3.7/3.8/3.9/3.10 and linux-64/linux-aarch64, but the py positional
greedily consumes every supplied argument, so the platform list always keeps
its default and cannot be set from the command line. -/
theorem cli_positionals_with_defaults (argv : List String) :
    parse_args argv
      = ((if argv.isEmpty then ["3.7", "3.8", "3.9", "3.10"] else argv),
         ["linux-64", "linux-aarch64"]) := rfl

/-- C9 counterexample: the target file is absent, yet set_python does not
create it — the manifest has no python dependency, so ValueError is raised
before any write. -/
theorem missing_target_not_always_created :
    fsEmpty "environment.py-3.8.yml" = none
    ∧ (set_python fsEmpty "environment.py-3.8.yml" "3.8"
        { dependencies := ["numpy"], otherFields := [] } "TS").1 "environment.py-3.8.yml"
      = none :=
  ⟨rfl, by decide⟩

/-- C9 amended: when the target file does not exist, freeze and set_python
skip the marker check and attempt regeneration on every input; the file is
actually (re)created when regeneration succeeds (conda-lock exits zero, and
a python dependency exists, respectively). -/
theorem missing_target_regenerates
    (fs : FS) (ef ff pl lock ts : String) (hex : fs ff = none)
    (fs2 : FS) (pf py ts2 : String) (env env2 : CondaEnv)
    (hex2 : fs2 pf = none) (hrepl : setPyEnv env py = some env2) :
    (∀ lr, (freeze fs ef ff pl lr ts).2.2 ≠ FreezeOutcome.skipped)
    ∧ (freeze fs ef ff pl (some lock) ts).1 ff = some (freezeHeader ef ts ++ lock)
    ∧ (set_python fs2 pf py env ts2).2 = SetPyOutcome.written
    ∧ (set_python fs2 pf py env ts2).1 pf = some (setPyHeader ts2 ++ dumpEnv env2) := by
  have hc := clobberOk_of_none fs ff hex
  have hc2 := clobberOk_of_none fs2 pf hex2
  refine ⟨?_, freeze_written_dest fs ef ff pl lock ts hc, ?_,
    set_python_written_dest fs2 pf py env env2 ts2 hc2 hrepl⟩
  · intro lr
    cases lr with
    | none =>
      rw [freeze_lockFailed fs ef ff pl ts hc]
      exact fun h => FreezeOutcome.noConfusion h
    | some lock2 =>
      rw [freeze_written_eq fs ef ff pl lock2 ts hc]
      exact fun h => FreezeOutcome.noConfusion h
  · rw [set_python_written fs2 pf py env env2 ts2 hc2 hrepl]

/-- Witness for the amended C9 at concrete inputs. -/
theorem missing_target_regenerates_witness :
    fsEmpty "environment.py-3.8-linux-64.lock" = none
    ∧ fsEmpty "environment.py-3.8.yml" = none
    ∧ setPyEnv envSample "3.8" = some envSample38
    ∧ ((∀ lr, (freeze fsEmpty "environment.py-3.8.yml" "environment.py-3.8-linux-64.lock"
          "linux-64" lr "TS").2.2 ≠ FreezeOutcome.skipped)
      ∧ (freeze fsEmpty "environment.py-3.8.yml" "environment.py-3.8-linux-64.lock" "linux-64"
          (some "pins\n") "TS").1 "environment.py-3.8-linux-64.lock"
        = some (freezeHeader "environment.py-3.8.yml" "TS" ++ "pins\n")
      ∧ (set_python fsEmpty "environment.py-3.8.yml" "3.8" envSample "TS").2
        = SetPyOutcome.written
      ∧ (set_python fsEmpty "environment.py-3.8.yml" "3.8" envSample "TS").1
          "environment.py-3.8.yml"
        = some (setPyHeader "TS" ++ dumpEnv envSample38)) :=
  ⟨rfl, rfl, by decide,
    missing_target_regenerates fsEmpty "environment.py-3.8.yml"
      "environment.py-3.8-linux-64.lock" "linux-64" "pins\n" "TS" rfl
      fsEmpty "environment.py-3.8.yml" "3.8" "TS" envSample envSample38 rfl (by decide)⟩

/-- C10: in the main loop body the per-version lock file is copied onto the
platform-generic lock path genericLockName exactly when py equals default_py
("3.7"); for any other version the loop body ends with the post-freeze
filesystem and performs no copy. -/
theorem generic_lock_copied_only_for_default_py
    (fs : FS) (env : CondaEnv) (lr : Option String) (ts py pl : String)
    (h1 : (set_python fs (envFileName py) py env ts).2 ≠ SetPyOutcome.valueError)
    (h2 : (freeze (set_python fs (envFileName py) py env ts).1 (envFileName py)
        (frozenFileName py pl) pl lr ts).2.2 ≠ FreezeOutcome.lockFailed) :
    mainStep fs env lr ts py pl
      = (if py = default_py then
          Except.ok
            (update (freeze (set_python fs (envFileName py) py env ts).1 (envFileName py)
                (frozenFileName py pl) pl lr ts).1 (genericLockName pl)
              ((freeze (set_python fs (envFileName py) py env ts).1 (envFileName py)
                (frozenFileName py pl) pl lr ts).1 (frozenFileName py pl)), true)
        else
          Except.ok ((freeze (set_python fs (envFileName py) py env ts).1 (envFileName py)
            (frozenFileName py pl) pl lr ts).1, false)) := by
  simp only [mainStep]
  rw [if_neg h1, if_neg h2]

/-- Witness for C10 at a non-default version (no copy is made). -/
theorem generic_lock_copied_only_for_default_py_witness :
    (set_python fsEmpty (envFileName "3.8") "3.8" envSample "TS").2 ≠ SetPyOutcome.valueError
    ∧ (freeze (set_python fsEmpty (envFileName "3.8") "3.8" envSample "TS").1
        (envFileName "3.8") (frozenFileName "3.8" "linux-64") "linux-64"
        (some "pins\n") "TS").2.2 ≠ FreezeOutcome.lockFailed
    ∧ mainStep fsEmpty envSample (some "pins\n") "TS" "3.8" "linux-64"
      = (if "3.8" = default_py then
          Except.ok
            (update (freeze (set_python fsEmpty (envFileName "3.8") "3.8" envSample "TS").1
                (envFileName "3.8") (frozenFileName "3.8" "linux-64") "linux-64"
                (some "pins\n") "TS").1 (genericLockName "linux-64")
              ((freeze (set_python fsEmpty (envFileName "3.8") "3.8" envSample "TS").1
                (envFileName "3.8") (frozenFileName "3.8" "linux-64") "linux-64"
                (some "pins\n") "TS").1 (frozenFileName "3.8" "linux-64")), true)
        else
          Except.ok ((freeze (set_python fsEmpty (envFileName "3.8") "3.8" envSample "TS").1
            (envFileName "3.8") (frozenFileName "3.8" "linux-64") "linux-64"
            (some "pins\n") "TS").1, false)) :=
  ⟨by decide, by decide,
    generic_lock_copied_only_for_default_py fsEmpty envSample (some "pins\n") "TS" "3.8"
      "linux-64" (by decide) (by decide)⟩

example : containsSub "GENERATED" "# AUTO GENERATED FROM x\nrest" = true := by decide
example : containsSub "GENERATED" "# hand edited\nrest" = false := by decide
example : readline "ab\ncd" = "ab\n" := by decide
example : splitEqHead "python=3.7.*" = "python" := by decide
example : splitEqHead "python" = "python" := by decide
example : replacePython ["numpy", "python=3", "python"] "3.9"
    = some ["numpy", "python=3.9.*", "python"] := by decide
example : replacePython ["numpy"] "3.9" = none := by decide
